import Mathlib

/-!
Shallow embedding of the HumanSign keystroke-notary core
(src/lib/fileHandler.ts, src/lib/securityUtils.ts, src/lib/aiDetector.ts,
src/lib/analysisEngine.ts, src/hooks/useBiometricCapture.ts), together with
theorems settling the specification claims about it.

Conventions of the embedding:
* JavaScript numbers are modelled as `ℚ` (all quantities appearing in the
  claims are produced by exact rational arithmetic, except square roots,
  see `jsSqrt`); wall-clock instants produced by `Date.now()` are `ℕ`
  milliseconds.
* `Math.round` is modelled by `jsRound` (round half towards +∞, which is
  JavaScript's behaviour and agrees with `⌊x + 1/2⌋`).
* `Math.sqrt` is modelled by `jsSqrt`, exact on rationals that are perfect
  squares (every concrete input evaluated in this file is one) and a floor
  approximation elsewhere; theorems quantifying over all inputs use it
  uniformly on both sides of any comparison, so no result depends on the
  approximation.
* Fallible operations return `Except`/`Option`.
-/

set_option allowUnsafeReducibility true
attribute [semireducible] Rat.add Rat.mul Rat.sub Rat.div Rat.inv Rat.neg Rat.ofScientific

/-- Models JavaScript `Math.round`: round half towards positive infinity. -/
def jsRound (q : ℚ) : ℤ := ⌊q + 1/2⌋

/-- Newton iteration for the integer square root, structurally recursive on
a fuel argument so that it reduces in the kernel (`Nat.sqrt` is defined by
well-founded recursion and does not).  The guess sequence is strictly
decreasing until it stabilises at `⌊√n⌋`, so fuel `n` always suffices. -/
def sqrtIter : ℕ → ℕ → ℕ → ℕ
  | 0, _, guess => guess
  | fuel + 1, n, guess =>
    let next := (guess + n / guess) / 2
    if next < guess then sqrtIter fuel n next else guess

/-- Integer square root, `⌊√n⌋`, kernel-computable. -/
def intSqrt (n : ℕ) : ℕ := if n ≤ 1 then n else sqrtIter n n n

/-- Models JavaScript `Math.sqrt` on the rationals produced by the code:
exact whenever the argument is a perfect square of a rational (the only
points at which any concrete theorem in this file evaluates it), and the
floor of the true square root otherwise; non-positive arguments map to 0. -/
def jsSqrt (q : ℚ) : ℚ :=
  if q ≤ 0 then 0 else (intSqrt (q.num.toNat * q.den) : ℚ) / (q.den : ℚ)

/-- Arithmetic mean of a list of rationals (`Math.mean` monkey-patch in
useBiometricCapture.ts and `calculateMean` in analysisEngine.ts); the code
only calls it on non-empty lists, `ℚ` division by zero yields 0. -/
def jsMean (l : List ℚ) : ℚ := l.sum / (l.length : ℚ)

/-- Population standard deviation (`Math.std` monkey-patch in
useBiometricCapture.ts and `calculateStd` in analysisEngine.ts). -/
def jsStd (l : List ℚ) : ℚ :=
  jsSqrt ((l.map (fun n => (n - jsMean l) ^ 2)).sum / (l.length : ℚ))

/-- Event payload (`data` field of a KeystrokeEvent, src/types).  Only the
fields the core reads are modelled: `key` for key events (absent on paste
events) and `pasteLength` for paste events (absent on key events; the code
reads it as `e.data.pasteLength || 0`). -/
structure EventData where
  key : Option String
  pasteLength : Option ℕ
deriving DecidableEq, Repr

/-- One recorded input action (KeystrokeEvent, src/types): unique id, a
monotonic `timestamp` (performance.now), a wall-clock `absoluteTime`
(Date.now), a variant discriminator `type`, a session id and a payload.
All scalar fields are structurally present here; `SecurityUtils.
validateEventStructure` additionally tests their JavaScript truthiness. -/
structure KeystrokeEvent where
  id : String
  timestamp : ℚ
  absoluteTime : ℚ
  type : String
  sessionId : String
  data : EventData
deriving DecidableEq, Repr

/-- Finalized biometric metadata (BiometricMetadata, src/types) as persisted
in `metadata.json`.  `contentHash`/`signature` use `""` for JSON `null`
(both are tested only for JavaScript truthiness, which identifies the two). -/
structure BiometricMetadata where
  version : String
  events : List KeystrokeEvent
  sessionStart : ℚ
  sessionId : String
  contentHash : String
  signature : String
  finalText : String
deriving DecidableEq, Repr

namespace SecurityUtils

/-- Replay-window policy constant: the default `maxAge` argument of
`SecurityUtils.isReplayAttack` (24 hours in milliseconds); the sole caller
`FileHandler.readHumanSignFile` uses the default. -/
def maxReplayAge : ℚ := 24 * 60 * 60 * 1000

/-- SecurityUtils.isReplayAttack: the file is suspicious when more than
`maxAge` milliseconds elapsed between `metadata.sessionStart` and now. -/
def isReplayAttack (metadata : BiometricMetadata) (now : ℕ) : Bool :=
  (now : ℚ) - metadata.sessionStart > maxReplayAge

/-- SecurityUtils.detectTimestampManipulation: with fewer than two events
the function returns `false` immediately; otherwise it flags any
consecutive pair whose `timestamp` decreases, or any event whose
`absoluteTime` lies more than 60000 ms after the current clock. -/
def detectTimestampManipulation (events : List KeystrokeEvent) (now : ℕ) : Bool :=
  if events.length < 2 then false
  else
    ((events.zip events.tail).any fun p => p.2.timestamp < p.1.timestamp) ||
    (events.any fun e => e.absoluteTime > (now : ℚ) + 60000)

/-- SecurityUtils.validateEventStructure: every event must have truthy
`id`, `timestamp`, `absoluteTime`, `type`, `sessionId` and `data`, with the
two timestamps numeric.  In this model the fields are structurally present
and numeric, and `data` (an object) is always truthy; the remaining content
of the check is the truthiness of the five scalar fields: a number is falsy
exactly when it is 0, a string exactly when it is empty. -/
def validateEventStructure (events : List KeystrokeEvent) : Bool :=
  events.all fun e =>
    e.id ≠ "" && e.timestamp ≠ 0 && e.absoluteTime ≠ 0 && e.type ≠ "" && e.sessionId ≠ ""

/-- Replacement table of SecurityUtils.sanitizeContent.  The five
`.replace` passes are independent because no replacement string contains a
character replaced by a later pass, so a single character-wise pass is
equivalent. -/
def sanitizeChar (c : Char) : List Char :=
  if c = '<' then "&lt;".data
  else if c = '>' then "&gt;".data
  else if c = '"' then "&quot;".data
  else if c = '\'' then "&#x27;".data
  else if c = '/' then "&#x2F;".data
  else [c]

/-- SecurityUtils.sanitizeContent: escape markup-significant characters. -/
def sanitizeContent (content : String) : String :=
  ⟨(content.data.map sanitizeChar).flatten⟩

end SecurityUtils

namespace CryptoUtils

/-- The `signatureData` record built by CryptoUtils.createSignature,
serialized exactly as `JSON.stringify` renders it:
`{sessionId, contentHash, eventCount, finalTextLength, timestamp: Date.now()}`.
On every signing path `contentHash` has just been assigned a hex digest
and the string fields contain no characters JSON would escape, so plain
quoting is faithful.  `now` is the `Date.now()` value sampled inside
`createSignature` itself. -/
def signatureString (metadata : BiometricMetadata) (now : ℕ) : String :=
  "\x7b\"sessionId\":\"" ++ metadata.sessionId ++
  "\",\"contentHash\":\"" ++ metadata.contentHash ++
  "\",\"eventCount\":" ++ toString metadata.events.length ++
  ",\"finalTextLength\":" ++ toString metadata.finalText.length ++
  ",\"timestamp\":" ++ toString now ++ "\x7d"

/-- CryptoUtils.createSignature: hash of the serialized signature data
concatenated with the secret key.  `hashFn` abstracts
`CryptoUtils.createHash` (SHA-256, not representable in the embedding);
the code relies only on it being a deterministic function of its input. -/
def createSignature (hashFn : String → String) (metadata : BiometricMetadata)
    (secretKey : String) (now : ℕ) : String :=
  hashFn (signatureString metadata now ++ secretKey)

/-- CryptoUtils.verifySignature: recompute `createSignature` — including a
fresh `Date.now()` sample `now`, the verification-time clock — and compare
with the stored signature. -/
def verifySignature (hashFn : String → String) (metadata : BiometricMetadata)
    (signature : String) (secretKey : String) (now : ℕ) : Bool :=
  signature == createSignature hashFn metadata secretKey now

end CryptoUtils

namespace FileHandler

/-- Result record of FileHandler.preProcessEvents. -/
structure ProcessedEvents where
  totalEvents : ℕ
  keyEvents : ℕ
  pasteEvents : ℕ
  backspaceCount : ℕ
  averageTiming : ℚ
  timingVariance : ℚ
  sessionDuration : ℚ
deriving DecidableEq, Repr

/-- Consecutive key-down timestamp differences kept by
FileHandler.preProcessEvents: `keyDownEvents[i].timestamp −
keyDownEvents[i−1].timestamp`, outliers outside `(0, 5000)` ms dropped. -/
def keyDownTimings (events : List KeystrokeEvent) : List ℚ :=
  let keyDownEvents := events.filter fun e => e.type == "keydown"
  ((keyDownEvents.zip keyDownEvents.tail).map fun p =>
      p.2.timestamp - p.1.timestamp).filter fun t => decide (0 < t ∧ t < 5000)

/-- FileHandler.calculateVariance: population variance rounded to two
decimal places (`Math.round(variance * 100) / 100`); 0 on an empty list. -/
def calculateVariance (numbers : List ℚ) : ℚ :=
  if numbers.length = 0 then 0
  else
    let mean := numbers.sum / (numbers.length : ℚ)
    let variance := (numbers.map fun n => (n - mean) ^ 2).sum / (numbers.length : ℚ)
    (jsRound (variance * 100) : ℚ) / 100

/-- FileHandler.preProcessEvents.  `sessionDuration` is wall-clock seconds
between the first and the last event of the whole log (whatever their
types); the guarded branches return 0 rather than dividing by zero. -/
def preProcessEvents (events : List KeystrokeEvent) : ProcessedEvents :=
  let timings := keyDownTimings events
  { totalEvents := events.length
    keyEvents := (events.filter fun e => e.type == "keydown" || e.type == "keyup").length
    pasteEvents := (events.filter fun e => e.type == "paste").length
    backspaceCount :=
      (events.filter fun e => e.type == "keydown" && e.data.key == some "Backspace").length
    averageTiming := if timings.length > 0 then timings.sum / (timings.length : ℚ) else 0
    timingVariance := calculateVariance timings
    sessionDuration :=
      if events.length > 0 then
        (((events.getLast?.map fun e => e.absoluteTime).getD 0) -
          ((events.head?.map fun e => e.absoluteTime).getD 0)) / 1000
      else 0 }

/-- Result record of FileHandler.analyzeBiometrics (the behavioral
scorer).  The `analysisTimestamp: Date.now()` field is omitted: nothing
reads it. -/
structure BiometricAnalysis where
  humanScore : ℚ
  verdict : String
  anomalies : List String
  metrics : ProcessedEvents
deriving DecidableEq, Repr

/-- FileHandler.analyzeBiometrics: start from 100, penalize pastes (10
each), too-consistent timing (−30 over >20 key events), superhuman average
speed (−20 above 15 keys/second) and too few corrections (−15 below ratio
0.02 over >50 key events); clamp to [0, 100] and threshold the unclamped
score at 80/60/40/20 for the verdict label. -/
def analyzeBiometrics (metadata : BiometricMetadata) : BiometricAnalysis :=
  let processed := preProcessEvents metadata.events
  let s1 : ℚ := 100
  let s2 := if processed.pasteEvents > 0 then s1 - processed.pasteEvents * 10 else s1
  let a2 : List String :=
    if processed.pasteEvents > 0 then
      ["Detected " ++ toString processed.pasteEvents ++ " paste events"] else []
  let s3 := if processed.timingVariance < 10 ∧ processed.keyEvents > 20 then s2 - 30 else s2
  let a3 := a2 ++
    (if processed.timingVariance < 10 ∧ processed.keyEvents > 20 then
      ["Extremely consistent typing rhythm detected"] else [])
  let avgSpeed := (processed.keyEvents : ℚ) / max processed.sessionDuration 1
  let s4 := if avgSpeed > 15 then s3 - 20 else s3
  let a4 := a3 ++ (if avgSpeed > 15 then ["Unusually high typing speed detected"] else [])
  let backspaceRatio := (processed.backspaceCount : ℚ) / max (processed.keyEvents : ℚ) 1
  let s5 := if backspaceRatio < 0.02 ∧ processed.keyEvents > 50 then s4 - 15 else s4
  let a5 := a4 ++
    (if backspaceRatio < 0.02 ∧ processed.keyEvents > 50 then ["Very few corrections made"] else [])
  let verdict :=
    if s5 ≥ 80 then "VERIFIED_HUMAN"
    else if s5 ≥ 60 then "LIKELY_HUMAN"
    else if s5 ≥ 40 then "SUSPICIOUS"
    else if s5 ≥ 20 then "LIKELY_AI"
    else "DETECTED_AI"
  { humanScore := max 0 (min 100 s5), verdict := verdict, anomalies := a5, metrics := processed }

/-- The `fileInfo` block of the manifest. -/
structure FileInfo where
  textLength : ℕ
  wordCount : ℕ
  eventCount : ℕ
  sessionDuration : ℚ
deriving DecidableEq, Repr

/-- The manifest written to `manifest.json` by
FileHandler.createHumanSignFile.  `created` holds the packaging-time
`Date.now()` (the code stores it as an ISO string; nothing parses it
back). -/
structure HumanSignManifest where
  version : String
  format : String
  created : ℕ
  sessionId : String
  contentHash : String
  signature : String
  analysis : BiometricAnalysis
  fileInfo : FileInfo
deriving DecidableEq, Repr

/-- JavaScript `text.split(/\s+/).filter(w => w.length > 0)`. -/
def wordsOf (text : String) : List String :=
  (text.split fun c => c.isWhitespace).filter fun w => w.length > 0

/-- The four-member archive produced by FileHandler.createHumanSignFile.
The generated `PROOF.md` member is a human-readable rendering of the
manifest that is never read back programmatically and is omitted here. -/
structure HumanSignArchive where
  content : String
  metadata : BiometricMetadata
  manifest : HumanSignManifest
deriving DecidableEq, Repr

/-- FileHandler.createHumanSignFile: fill `contentHash`, sign (with the
fresh random session key from `generateSecretKey`, abstracted as the
`secretKey` argument, and the packaging-time clock `now`), fill
`signature`, run the behavioral scorer, and assemble the archive. -/
def createHumanSignFile (hashFn : String → String) (text : String)
    (metadata : BiometricMetadata) (secretKey : String) (now : ℕ) : HumanSignArchive :=
  let m1 := { metadata with contentHash := hashFn text }
  let m2 := { m1 with signature := CryptoUtils.createSignature hashFn m1 secretKey now }
  let analysis := analyzeBiometrics m2
  { content := text
    metadata := m2
    manifest :=
      { version := "1.0.0"
        format := "HUMANSIGN_V1"
        created := now
        sessionId := m2.sessionId
        contentHash := m2.contentHash
        signature := m2.signature
        analysis := analysis
        fileInfo :=
          { textLength := text.length
            wordCount := (wordsOf text).length
            eventCount := m2.events.length
            sessionDuration := analysis.metrics.sessionDuration } } }

/-- Internal failure sites of FileHandler.readHumanSignFile.  The
function's outer `catch` collapses every one of them into the single
generic `Error('Invalid or malicious HumanSign file')`; the distinct
constructors record which internal site threw. -/
inductive ReadError where
  | containerParseFailed
  | fileTooLarge
  | missingMetadata
  | invalidEventStructure
  | timestampManipulation
  | replayAttack
deriving DecidableEq, Repr

/-- A parsed ZIP container: the three machine-read members, each possibly
absent. -/
structure HumanSignContainer where
  content : Option String
  metadata : Option BiometricMetadata
  manifest : Option HumanSignManifest
deriving DecidableEq, Repr

/-- Input to FileHandler.readHumanSignFile: the uploaded `File`'s byte
size, and the result of parsing it as a ZIP container (`none` when
`JSZip.loadAsync` fails). -/
structure HumanSignFileRep where
  size : ℕ
  container : Option HumanSignContainer
deriving DecidableEq, Repr

/-- Successful result of FileHandler.readHumanSignFile: sanitized text,
parsed metadata, parsed manifest. -/
structure ReadResult where
  text : String
  metadata : BiometricMetadata
  manifest : Option HumanSignManifest
deriving DecidableEq, Repr

/-- Outcome of FileHandler.readHumanSignFile, instrumented with the order
of operations of the source: `containerParseAttempted` records that
`zip.loadAsync(file)` ran (it is the first statement, before the size
check), `memberParseAttempted` that the member reads/`JSON.parse` ran. -/
structure ReadOutcome where
  containerParseAttempted : Bool
  memberParseAttempted : Bool
  result : Except ReadError ReadResult

/-- The internal error of a read outcome, if any. -/
def ReadOutcome.error? (o : ReadOutcome) : Option ReadError :=
  match o.result with
  | .error e => some e
  | .ok _ => none

/-- True when the read threw (any internal site). -/
def ReadOutcome.rejected (o : ReadOutcome) : Bool := o.error?.isSome

/-- FileHandler.readHumanSignFile.  Order of the source: (1) parse the
container (`zip.loadAsync`); (2) size ceiling 10 MiB; (3) read members,
defaulting missing ones (`content.txt` to `''`; a missing `metadata.json`
defaults to `'{}'`, whose parse lacks `events`, so the subsequent
`events.every` throws — modelled as `missingMetadata`); (4) event
structure validation; (5) timestamp-manipulation check; (6) replay-window
check; (7) sanitize and return. -/
def readHumanSignFile (f : HumanSignFileRep) (now : ℕ) : ReadOutcome :=
  match f.container with
  | none => ⟨true, false, .error .containerParseFailed⟩
  | some c =>
    if f.size > 10 * 1024 * 1024 then ⟨true, false, .error .fileTooLarge⟩
    else
      match c.metadata with
      | none => ⟨true, true, .error .missingMetadata⟩
      | some m =>
        if ¬ SecurityUtils.validateEventStructure m.events then
          ⟨true, true, .error .invalidEventStructure⟩
        else if SecurityUtils.detectTimestampManipulation m.events now then
          ⟨true, true, .error .timestampManipulation⟩
        else if SecurityUtils.isReplayAttack m now then
          ⟨true, true, .error .replayAttack⟩
        else
          ⟨true, true, .ok ⟨SecurityUtils.sanitizeContent (c.content.getD ""), m, c.manifest⟩⟩

end FileHandler

namespace AIDetector

/-- AIDetector.calculateTimings: consecutive timestamp differences of an
already-filtered key-down list, outliers outside `(0, 5000)` ms dropped. -/
def calculateTimings (keyEvents : List KeystrokeEvent) : List ℚ :=
  ((keyEvents.zip keyEvents.tail).map fun p =>
      p.2.timestamp - p.1.timestamp).filter fun t => decide (0 < t ∧ t < 5000)

/-- Result record of AIDetector.calculateRhythmFeatures.  Note that the
field holding `stddev/mean` is exposed by `extractFeatures` under the name
`rhythmConsistency`. -/
structure RhythmFeatures where
  avgInterval : ℚ
  variance : ℚ
  maxPause : ℚ
  minPause : ℚ
  consistency : ℚ
  thinkingPauses : ℕ
deriving DecidableEq, Repr

/-- AIDetector.calculateRhythmFeatures: all-zero on an empty timing list;
otherwise mean interval, population standard deviation (the code calls it
`variance`), extreme pauses, `stddev/mean` consistency and the count of
pauses above one second. -/
def calculateRhythmFeatures (timings : List ℚ) : RhythmFeatures :=
  if timings.length = 0 then
    { avgInterval := 0, variance := 0, maxPause := 0, minPause := 0
      consistency := 0, thinkingPauses := 0 }
  else
    let avgInterval := timings.sum / (timings.length : ℚ)
    let variance := jsSqrt ((timings.map fun t => (t - avgInterval) ^ 2).sum / (timings.length : ℚ))
    { avgInterval := avgInterval
      variance := variance
      maxPause := (timings.max?).getD 0
      minPause := (timings.min?).getD 0
      consistency := variance / avgInterval
      thinkingPauses := (timings.filter fun t => decide (t > 1000)).length }

/-- AIDetector.detectBurstPatterns: fraction of positions with two
consecutive intervals under 100 ms followed by one above 500 ms; 0 when
fewer than three intervals exist. -/
def detectBurstPatterns (timings : List ℚ) : ℚ :=
  if timings.length < 3 then 0
  else
    let burstCount :=
      ((timings.zip (timings.tail.zip timings.tail.tail)).filter fun p =>
        decide (p.1 < 100 ∧ p.2.1 < 100 ∧ p.2.2 > 500)).length
    (burstCount : ℚ) / ((timings.length : ℚ) - 2)

/-- AIDetector.calculateTextComplexity.  When the text is non-empty but
has no words or no sentence-terminating punctuation the JavaScript value
is `NaN`/`Infinity`; `ℚ` division-by-zero yields 0 here.  The value feeds
no scoring rule, so no claim depends on that corner. -/
def calculateTextComplexity (text : String) : ℚ :=
  if text = "" then 0
  else
    let words := FileHandler.wordsOf text
    let sentences := (text.split fun c => c == '.' || c == '!' || c == '?').filter
      fun s => s.length > 0
    let avgWordLength := (words.map fun w => (w.length : ℚ)).sum / (words.length : ℚ)
    let avgSentenceLength := (words.length : ℚ) / (sentences.length : ℚ)
    avgWordLength * 0.6 + avgSentenceLength * 0.4

/-- AIDetector.calculateWordLengthVariance: population standard deviation
of the word lengths, 0 when there are no words. -/
def calculateWordLengthVariance (text : String) : ℚ :=
  let words := FileHandler.wordsOf text
  if words.length = 0 then 0
  else
    let wordLengths := words.map fun w => (w.length : ℚ)
    let avgLength := wordLengths.sum / (wordLengths.length : ℚ)
    jsSqrt ((wordLengths.map fun l => (l - avgLength) ^ 2).sum / (wordLengths.length : ℚ))

/-- Feature record returned by AIDetector.extractFeatures.  The
consistency statistic is exposed under the key `rhythmConsistency`; there
is no `consistency` key (see `predictAIProbability`). -/
structure AIFeatures where
  avgKeyInterval : ℚ
  timingVariance : ℚ
  maxPause : ℚ
  minPause : ℚ
  backspaceRatio : ℚ
  pasteRatio : ℚ
  eventDensity : ℚ
  rhythmConsistency : ℚ
  burstPattern : ℚ
  thinkingPauses : ℕ
  textComplexity : ℚ
  wordLengthVariance : ℚ
deriving DecidableEq, Repr

/-- AIDetector.extractFeatures. -/
def extractFeatures (metadata : BiometricMetadata) : AIFeatures :=
  let events := metadata.events
  let keyEvents := events.filter fun e => e.type == "keydown"
  let timings := calculateTimings keyEvents
  let rhythmFeatures := calculateRhythmFeatures timings
  let backspaceCount :=
    (events.filter fun e => e.type == "keydown" && e.data.key == some "Backspace").length
  let pasteLength :=
    ((events.filter fun e => e.type == "paste").map fun e => e.data.pasteLength.getD 0).sum
  { avgKeyInterval := rhythmFeatures.avgInterval
    timingVariance := rhythmFeatures.variance
    maxPause := rhythmFeatures.maxPause
    minPause := rhythmFeatures.minPause
    backspaceRatio := (backspaceCount : ℚ) / max (keyEvents.length : ℚ) 1
    pasteRatio := (pasteLength : ℚ) / max (metadata.finalText.length : ℚ) 1
    eventDensity := (keyEvents.length : ℚ) / max (metadata.finalText.length : ℚ) 1
    rhythmConsistency := rhythmFeatures.consistency
    burstPattern := detectBurstPatterns timings
    thinkingPauses := rhythmFeatures.thinkingPauses
    textComplexity := calculateTextComplexity metadata.finalText
    wordLengthVariance := calculateWordLengthVariance metadata.finalText }

/-- AIDetector.predictAIProbability.  The first two rules of the source
test `features.consistency`; `extractFeatures` defines no such property
(the statistic is stored as `rhythmConsistency`), so the JavaScript
comparisons `undefined < 0.3` and `undefined < 0.5` are both false and
neither consistency tier can ever contribute — modelled as the constant
0 contribution below.  The remaining rules read properties that do
exist. -/
def predictAIProbability (features : AIFeatures) : ℕ :=
  let consistencyScore : ℕ := 0
  let burstScore : ℕ := if features.burstPattern > 0.1 then 20 else 0
  let backspaceScore : ℕ := if features.backspaceRatio < 0.02 then 15 else 0
  let pasteScore : ℕ := if features.pasteRatio > 0.1 then 20 else 0
  let densityScore : ℕ := if features.eventDensity > 2 then 10 else 0
  let pauseScore : ℕ :=
    if features.thinkingPauses < 2 ∧ features.avgKeyInterval < 200 then 10 else 0
  min 100 (consistencyScore + burstScore + backspaceScore + pasteScore + densityScore + pauseScore)

/-- Result record of AIDetector.analyzeForAI. -/
structure AIAnalysis where
  aiProbability : ℕ
  humanProbability : ℕ
  redFlags : List String
  features : AIFeatures
  confidence : ℕ
deriving DecidableEq, Repr

/-- AIDetector.analyzeForAI.  The first red-flag condition tests the
non-existent `features.consistency` (see `predictAIProbability`) and can
never fire; the backspace and thinking-pause flags carry event-count
conditions that the corresponding scoring rules do not. -/
def analyzeForAI (metadata : BiometricMetadata) : AIAnalysis :=
  let features := extractFeatures metadata
  let aiProbability := predictAIProbability features
  let redFlags : List String :=
    (if False then ["Extremely consistent typing rhythm detected"] else []) ++
    (if features.burstPattern > 0.1 then
      ["Burst typing pattern suggests automated input"] else []) ++
    (if features.backspaceRatio < 0.02 ∧ metadata.events.length > 50 then
      ["Very few corrections made, unusual for human typing"] else []) ++
    (if features.pasteRatio > 0.1 then
      ["Significant paste operations detected"] else []) ++
    (if features.thinkingPauses < 2 ∧ metadata.events.length > 100 then
      ["Lack of natural thinking pauses"] else [])
  { aiProbability := aiProbability
    humanProbability := 100 - aiProbability
    redFlags := redFlags
    features := features
    confidence := (((aiProbability : ℤ) - 50).natAbs) * 2 }

end AIDetector

namespace AnalysisEngine

/-- The hardcoded verification key of
AnalysisEngine.verifyCryptographicIntegrity. -/
def simulatedKey : String := "human_sign_demo_key_2024"

/-- AnalysisEngine.verifyCryptographicIntegrity: falsy signature or
content hash fails; then the recovered final text is re-hashed and
compared with the manifest's hash; then the signature is re-derived (with
the hardcoded demo key and the verification-time clock `now`) and
compared.  A missing `manifest.json` parses to `{}`, whose `signature`
property is undefined (falsy) — the `none` case. -/
def verifyCryptographicIntegrity (hashFn : String → String)
    (metadata : BiometricMetadata) (manifest? : Option FileHandler.HumanSignManifest)
    (now : ℕ) : Bool :=
  match manifest? with
  | none => false
  | some manifest =>
    if manifest.signature = "" ∨ manifest.contentHash = "" then false
    else if hashFn metadata.finalText ≠ manifest.contentHash then false
    else CryptoUtils.verifySignature hashFn metadata manifest.signature simulatedKey now

/-- AnalysisEngine.analyzeEventGaps: the gap list and whether any
consecutive-event timestamp gap exceeds 30 seconds. -/
def hasSuspiciousGaps (events : List KeystrokeEvent) : Bool :=
  ((events.zip events.tail).map fun p => p.2.timestamp - p.1.timestamp).any
    fun g => decide (g > 30000)

/-- AnalysisEngine.reconstructContentFromEvents: concatenation of the
`key` payloads of key-down events whose key is a truthy single-character
string. -/
def reconstructContentFromEvents (events : List KeystrokeEvent) : String :=
  let keyEvents := events.filter fun e =>
    e.type == "keydown" &&
      (match e.data.key with
       | some k => k ≠ "" && k.length == 1
       | none => false)
  String.join (keyEvents.map fun e => e.data.key.getD "")

/-- AnalysisEngine.checkDuplicateTimestamps: `new Set(timestamps).size !==
timestamps.length`. -/
def checkDuplicateTimestamps (events : List KeystrokeEvent) : Bool :=
  ((events.map fun e => e.timestamp).eraseDups).length ≠ (events.map fun e => e.timestamp).length

/-- AnalysisEngine.analyzeTimingPatterns: unrealistic when more than five
inter-key-down intervals are below 10 ms, or when the coefficient of
variation over more than ten intervals is below 0.1.  Unlike the scorers,
this helper applies no outlier filter to the intervals. -/
def analyzeTimingPatterns (events : List KeystrokeEvent) : Bool :=
  let keyEvents := events.filter fun e => e.type == "keydown"
  let timings := (keyEvents.zip keyEvents.tail).map fun p => p.2.timestamp - p.1.timestamp
  let superhumanCount := (timings.filter fun t => decide (t < 10)).length
  (superhumanCount > 5) ||
    (if timings.length > 10 then jsStd timings / jsMean timings < (0.1 : ℚ) else false)

/-- AnalysisEngine.verifyEventSequence: timestamps never strictly
decrease between consecutive events. -/
def verifyEventSequence (events : List KeystrokeEvent) : Bool :=
  !((events.zip events.tail).any fun p => p.1.timestamp > p.2.timestamp)

/-- AnalysisEngine.detectTampering: union of the heuristic warnings; the
session duration here is in milliseconds (no `/1000`).  `content` is the
sanitized text the reader returned. -/
def detectTampering (metadata : BiometricMetadata) (content : String) : Bool :=
  let warnings : List String :=
    (if metadata.events.length = 0 then ["No biometric events recorded"] else []) ++
    (let sessionDuration : ℚ :=
      if metadata.events.length > 0 then
        ((metadata.events.getLast?.map fun e => e.absoluteTime).getD 0) -
          ((metadata.events.head?.map fun e => e.absoluteTime).getD 0)
      else 0
     if sessionDuration < 1000 ∧ metadata.events.length > 50 then
      ["Unnaturally fast typing detected"] else []) ++
    (if hasSuspiciousGaps metadata.events then ["Suspicious timing gaps in events"] else []) ++
    (if reconstructContentFromEvents metadata.events ≠ content then
      ["Content does not match recorded events"] else []) ++
    (if checkDuplicateTimestamps metadata.events then
      ["Duplicate timestamps detected - possible data fabrication"] else []) ++
    (if analyzeTimingPatterns metadata.events then
      ["Unrealistic timing patterns detected"] else []) ++
    (if ¬ verifyEventSequence metadata.events then
      ["Event sequence integrity compromised"] else [])
  warnings.length > 0

/-- AnalysisEngine.determineEnhancedVerdict: invalid on crypto failure or
tampering; otherwise subtract 30 when `aiProbability > 70`, else 15 when
`> 50`, and threshold at 75/50/25. -/
def determineEnhancedVerdict (humanScore : ℚ) (cryptoValid : Bool)
    (isTampered : Bool) (aiProbability : ℕ) : String :=
  if !cryptoValid then "invalid"
  else if isTampered then "invalid"
  else
    let adjustedScore :=
      if (aiProbability : ℚ) > 70 then humanScore - 30
      else if (aiProbability : ℚ) > 50 then humanScore - 15
      else humanScore
    if adjustedScore ≥ 75 then "verified_human"
    else if adjustedScore ≥ 50 then "mixed_content"
    else if adjustedScore ≥ 25 then "paste_detected"
    else "ai_detected"

/-- Result record of AnalysisEngine.analyzeHumanSignFile. -/
structure FileAnalysisResult where
  isValid : Bool
  isTampered : Bool
  humanScore : ℚ
  verdict : String
  anomalies : List String
  content : String
  metadata : BiometricMetadata
  manifest : Option FileHandler.HumanSignManifest
  biometricAnalysis : FileHandler.BiometricAnalysis
  aiAnalysis : AIDetector.AIAnalysis
deriving DecidableEq, Repr

/-- AnalysisEngine.analyzeHumanSignFile: read the archive, verify crypto
integrity, detect tampering, run both scorers, combine
(`max(0, behavioral − aiProbability)`), and derive the final verdict.
`now` is the verification-time `Date.now()` clock (used by the read-time
security checks and by the signature re-derivation). -/
def analyzeHumanSignFile (hashFn : String → String) (file : FileHandler.HumanSignFileRep)
    (now : ℕ) : Except FileHandler.ReadError FileAnalysisResult :=
  match (FileHandler.readHumanSignFile file now).result with
  | .error e => .error e
  | .ok r =>
    let cryptoValid := verifyCryptographicIntegrity hashFn r.metadata r.manifest now
    let isTampered := detectTampering r.metadata r.text
    let biometricAnalysis := FileHandler.analyzeBiometrics r.metadata
    let aiAnalysis := AIDetector.analyzeForAI r.metadata
    let combinedHumanScore := max 0 (biometricAnalysis.humanScore - (aiAnalysis.aiProbability : ℚ))
    .ok
      { isValid := cryptoValid && !isTampered
        isTampered := isTampered
        humanScore := combinedHumanScore
        verdict := determineEnhancedVerdict combinedHumanScore cryptoValid isTampered
          aiAnalysis.aiProbability
        anomalies := biometricAnalysis.anomalies ++ aiAnalysis.redFlags
        content := r.text
        metadata := r.metadata
        manifest := r.manifest
        biometricAnalysis := biometricAnalysis
        aiAnalysis := aiAnalysis }

end AnalysisEngine

namespace BiometricCapture

/-- One raw input action delivered to useBiometricCapture while capturing:
a key-down carrying the DOM `key` name and the `performance.now()` instant
of its handling, or a paste.  Key-up/copy/cut handlers touch none of the
state feeding the live statistics and are omitted. -/
inductive LiveInput where
  | key (name : String) (now : ℚ)
  | paste
deriving DecidableEq, Repr

/-- A rhythm-ring entry (`KeyTiming`, src/types): key name, timestamp and
the interval since the previous key-down. -/
structure KeyTiming where
  key : String
  timestamp : ℚ
  timing : ℚ
deriving DecidableEq, Repr

/-- The mutable refs of useBiometricCapture that feed the live
statistics: `lastKeyTimeRef`, `keyTimingsRef` (the ≤ 100 most recent
eligible keys), `backspaceCountRef`, `pasteCountRef`.  `startCapture`
resets them to `initialState`. -/
structure CaptureState where
  lastKeyTime : ℚ
  keyTimings : List KeyTiming
  backspaceCount : ℕ
  pasteCount : ℕ
deriving DecidableEq, Repr

/-- State immediately after `startCapture`. -/
def initialState : CaptureState := ⟨0, [], 0, 0⟩

/-- handleKeyDown: the interval is measured from the previous key-down
(0 when `lastKeyTimeRef` is still 0); a ring entry is recorded for
single-character keys, Backspace and Enter, keeping only the most recent
100 (`slice(-100)` after the push); Backspace increments its counter;
`lastKeyTimeRef` is updated for every key. -/
def handleKeyDown (s : CaptureState) (keyName : String) (now : ℚ) : CaptureState :=
  let timing := if s.lastKeyTime > 0 then now - s.lastKeyTime else 0
  let ring :=
    if keyName.length == 1 || keyName == "Backspace" || keyName == "Enter" then
      let r := s.keyTimings ++ [⟨keyName, now, timing⟩]
      if r.length > 100 then r.drop (r.length - 100) else r
    else s.keyTimings
  { lastKeyTime := now
    keyTimings := ring
    backspaceCount := if keyName == "Backspace" then s.backspaceCount + 1 else s.backspaceCount
    pasteCount := s.pasteCount }

/-- handlePaste: increments the paste counter only. -/
def handlePaste (s : CaptureState) : CaptureState :=
  { s with pasteCount := s.pasteCount + 1 }

/-- Replay a capture session from `startCapture` through a list of
inputs. -/
def runCapture (inputs : List LiveInput) : CaptureState :=
  inputs.foldl
    (fun s i =>
      match i with
      | .key n t => handleKeyDown s n t
      | .paste => handlePaste s)
    initialState

/-- The number of key-down events recorded in the session's event
sequence (`events.filter(e => e.type === KEY_DOWN).length`): one per
key-down input. -/
def keyDownCount (inputs : List LiveInput) : ℕ :=
  (inputs.filter fun i =>
    match i with
    | .key _ _ => true
    | .paste => false).length

/-- calculateHumanConfidence (useBiometricCapture.ts): sequential
adjustments from 100; the backspace ratio divides by the `totalKeys`
argument (guarded to 0 when it is 0); clamp to [0, 100]. -/
def calculateHumanConfidence (backspaces pastes : ℕ) (variance : ℤ)
    (pauses totalKeys : ℕ) : ℤ :=
  let s1 : ℤ := 100
  let s2 := if pastes > 0 then s1 - pastes * 15 else s1
  let backspaceRatio : ℚ := if totalKeys > 0 then (backspaces : ℚ) / (totalKeys : ℚ) else 0
  let s3 :=
    if backspaceRatio > 0.05 ∧ backspaceRatio < 0.2 then s2 + 10
    else if backspaceRatio = 0 then s2 - 20
    else s2
  let s4 :=
    if variance > 20 ∧ variance < 80 then s3 + 15
    else if variance ≤ 5 then s3 - 25
    else s3
  let s5 := if pauses > 2 then s4 + 10 else s4
  max 0 (min 100 s5)

/-- The `timings` array of calculateStats: the ring entries' `timing`
values, outliers outside `(0, 5000)` ms dropped. -/
def statsTimings (s : CaptureState) : List ℚ :=
  (s.keyTimings.map fun t => t.timing).filter fun t => decide (0 < t ∧ t < 5000)

/-- The live statistics the claims are about.  The WPM fields and the
`totalKeys` display field of the source's `LiveStats` depend only on
`text`/`events` and feed no claim; they are omitted. -/
structure LiveStats where
  variance : ℤ
  thinkingPauses : ℕ
  humanConfidence : ℤ
deriving DecidableEq, Repr

/-- calculateStats: rhythm variance is `Math.round(std/mean * 100)` over
the filtered ring timings when at least two exist (else 0); thinking
pauses are timings above one second; the confidence call receives
`timings.length` — the filtered ring-timing count — as its `totalKeys`
argument. -/
def calculateStats (s : CaptureState) : LiveStats :=
  let timings := statsTimings s
  let variance : ℤ :=
    if timings.length > 1 then jsRound (jsStd timings / jsMean timings * 100) else 0
  let thinkingPauses := (timings.filter fun t => decide (t > 1000)).length
  { variance := variance
    thinkingPauses := thinkingPauses
    humanConfidence :=
      calculateHumanConfidence s.backspaceCount s.pasteCount variance thinkingPauses
        timings.length }

end BiometricCapture

/-! Spec-side definitions.  These are written from the specification's
words, to be compared with the definitions above, which are translated
from the source. -/

/-- The spec's human-confidence heuristic (spec §4.1): base 100, minus 15
per paste event; backspace-ratio = backspaces divided by the
`totalKeyDown` count (0 when the denominator is 0), +10 when strictly
between 0.05 and 0.20 and −20 when exactly 0; +15 when variance lies
strictly in (20, 80) and −25 when variance ≤ 5; +10 when more than two
thinking pauses; clamp to [0, 100]. -/
def specHumanConfidence (backspaces pastes : ℕ) (variance : ℤ)
    (pauses totalKeyDown : ℕ) : ℤ :=
  let ratio : ℚ := if totalKeyDown > 0 then (backspaces : ℚ) / (totalKeyDown : ℚ) else 0
  let base : ℤ := 100 - 15 * pastes
  let backspaceAdj : ℤ := if ratio > 0.05 ∧ ratio < 0.2 then 10 else if ratio = 0 then -20 else 0
  let varianceAdj : ℤ := if variance > 20 ∧ variance < 80 then 15 else if variance ≤ 5 then -25 else 0
  let pauseAdj : ℤ := if pauses > 2 then 10 else 0
  max 0 (min 100 (base + backspaceAdj + varianceAdj + pauseAdj))

/-- The spec's verdict combination (spec §4.5): `combinedScore = max(0,
behavioralScore − aiProbability)`; `invalid` when not crypto-valid or
tampered; otherwise subtract 30 when `aiProbability > 70`, else 15 when
`> 50`, and threshold at 75/50/25. -/
def specCombinedVerdict (behavioralScore : ℚ) (aiProbability : ℕ)
    (cryptoValid isTampered : Bool) : String :=
  let combinedScore := max 0 (behavioralScore - (aiProbability : ℚ))
  if !cryptoValid || isTampered then "invalid"
  else
    let adjusted := combinedScore -
      (if (aiProbability : ℚ) > 70 then 30 else if (aiProbability : ℚ) > 50 then 15 else 0)
    if adjusted ≥ 75 then "verified_human"
    else if adjusted ≥ 50 then "mixed_content"
    else if adjusted ≥ 25 then "paste_detected"
    else "ai_detected"

/-- Identity stand-in for the SHA-256 `hashFn` in concrete evaluations:
injective, like an ideal hash, so any two distinct hash inputs yield
distinct digests. -/
def idHash : String → String := fun s => s

/-! Concrete fixtures used by the counterexamples, code-bug evaluations
and witnesses. -/

/-- A short genuine capture: two key-downs typing `ab`. -/
def demoEvents : List KeystrokeEvent :=
  [{ id := "e1", timestamp := 100, absoluteTime := 1100, type := "keydown",
     sessionId := "session-1000", data := { key := some "a", pasteLength := none } },
   { id := "e2", timestamp := 400, absoluteTime := 1400, type := "keydown",
     sessionId := "session-1000", data := { key := some "b", pasteLength := none } }]

/-- Finalized metadata for the `ab` capture, before packaging fills
hash/signature. -/
def demoMetadata : BiometricMetadata :=
  { version := "1.0.0", events := demoEvents, sessionStart := 1000,
    sessionId := "session-1000", contentHash := "", signature := "", finalText := "ab" }

/-- The archive produced by packaging the `ab` capture at clock 5000 with
session key `hs_key_1` (a value of the `hs_`-prefixed shape
`generateSecretKey` produces), parameterized by the hash function. -/
def demoArchiveWith (hashFn : String → String) : FileHandler.HumanSignArchive :=
  FileHandler.createHumanSignFile hashFn "ab" demoMetadata "hs_key_1" 5000

/-- The packaged archive re-uploaded unmodified, well under the size
ceiling. -/
def demoFileWith (hashFn : String → String) : FileHandler.HumanSignFileRep :=
  { size := 2048,
    container := some
      { content := some (demoArchiveWith hashFn).content,
        metadata := some (demoArchiveWith hashFn).metadata,
        manifest := some (demoArchiveWith hashFn).manifest } }

/-- A structurally valid single-event archive whose one event's
`absoluteTime` (1061001) lies more than 60 s after the verification clock
(1000000). -/
def futureEventMetadata : BiometricMetadata :=
  { version := "1.0.0",
    events := [{ id := "e1", timestamp := 50, absoluteTime := 1061001, type := "keydown",
                 sessionId := "s1", data := { key := some "a", pasteLength := none } }],
    sessionStart := 999000, sessionId := "s1", contentHash := "", signature := "",
    finalText := "a" }

/-- File wrapping `futureEventMetadata`. -/
def futureEventFile : FileHandler.HumanSignFileRep :=
  { size := 100,
    container := some { content := some "a", metadata := some futureEventMetadata, manifest := none } }

/-- Metadata with two events whose timestamps decrease (200 then 100). -/
def outOfOrderMetadata : BiometricMetadata :=
  { version := "1.0.0",
    events := [{ id := "e1", timestamp := 200, absoluteTime := 1200, type := "keydown",
                 sessionId := "s1", data := { key := some "a", pasteLength := none } },
               { id := "e2", timestamp := 100, absoluteTime := 1100, type := "keydown",
                 sessionId := "s1", data := { key := some "b", pasteLength := none } }],
    sessionStart := 1000, sessionId := "s1", contentHash := "", signature := "",
    finalText := "ab" }

/-- Container and file wrapping `outOfOrderMetadata`. -/
def outOfOrderContainer : FileHandler.HumanSignContainer :=
  { content := some "ab", metadata := some outOfOrderMetadata, manifest := none }

/-- File wrapping `outOfOrderContainer`. -/
def outOfOrderFile : FileHandler.HumanSignFileRep :=
  { size := 100, container := some outOfOrderContainer }

/-- An oversized upload (10 MiB + 1 byte) that is not a valid ZIP
container at all. -/
def oversizedMalformedFile : FileHandler.HumanSignFileRep :=
  { size := 10 * 1024 * 1024 + 1, container := none }

/-- An oversized upload that is a well-formed container. -/
def oversizedWellFormedFile : FileHandler.HumanSignFileRep :=
  { size := 10 * 1024 * 1024 + 1,
    container := some { content := some "x", metadata := some demoMetadata, manifest := none } }

/-- A live session of 20 eligible key-downs 100 ms apart, the last one a
Backspace: 20 key-down events, 19 ring timings survive the `(0, 5000)`
filter (the first recorded timing is 0). -/
def liveSessionInputs : List BiometricCapture.LiveInput :=
  ((List.range 19).map fun i => BiometricCapture.LiveInput.key "a" (100 * ((i : ℚ) + 1))) ++
    [BiometricCapture.LiveInput.key "Backspace" 2000]

/-- Three key-downs with intervals 100 ms and 300 ms over a one-character
final text: the event-density rule (3 > 2) and the backspace rule
(0 < 0.02) score points, yet no red-flag condition holds. -/
def densityMetadata : BiometricMetadata :=
  { version := "1.0.0",
    events := [{ id := "e1", timestamp := 100, absoluteTime := 1100, type := "keydown",
                 sessionId := "s", data := { key := some "a", pasteLength := none } },
               { id := "e2", timestamp := 200, absoluteTime := 1200, type := "keydown",
                 sessionId := "s", data := { key := some "a", pasteLength := none } },
               { id := "e3", timestamp := 500, absoluteTime := 1500, type := "keydown",
                 sessionId := "s", data := { key := some "a", pasteLength := none } }],
    sessionStart := 1000, sessionId := "s", contentHash := "", signature := "",
    finalText := "a" }

/-- Sixteen key-downs 30 ms apart, all within 450 ms of wall-clock time:
average speed 16 keys/second (> 15) costs 20 points. -/
def burstMetadata : BiometricMetadata :=
  { version := "1.0.0",
    events := (List.range 16).map fun i =>
      { id := "k" ++ toString i, timestamp := 30 * (i : ℚ), absoluteTime := 1000 + 30 * (i : ℚ),
        type := "keydown", sessionId := "s", data := { key := some "a", pasteLength := none } },
    sessionStart := 1000, sessionId := "s", contentHash := "", signature := "",
    finalText := "hello world" }

/-- A paste event appended 2 s after the burst began: extends the session
duration to 2 s, dropping the average speed to 8 keys/second. -/
def latePasteEvent : KeystrokeEvent :=
  { id := "p1", timestamp := 480, absoluteTime := 3000, type := "paste",
    sessionId := "s", data := { key := none, pasteLength := some 10 } }

/-- `burstMetadata` with the late paste appended. -/
def burstPlusPasteMetadata : BiometricMetadata :=
  { burstMetadata with events := burstMetadata.events ++ [latePasteEvent] }

/-- A paste event appended at the same wall-clock instant as the last
key-down of `burstMetadata` (leaving the session duration unchanged). -/
def immediatePasteEvent : KeystrokeEvent :=
  { id := "p2", timestamp := 480, absoluteTime := 1450, type := "paste",
    sessionId := "s", data := { key := none, pasteLength := some 10 } }

/-- Metadata with no events at all but a non-empty final text. -/
def emptyEventsMetadata : BiometricMetadata :=
  { version := "1.0.0", events := [], sessionStart := 1000, sessionId := "s",
    contentHash := "", signature := "", finalText := "hi" }

/-- A structurally complete event whose numeric `timestamp` is 0 — falsy
in JavaScript. -/
def zeroTimestampMetadata : BiometricMetadata :=
  { version := "1.0.0",
    events := [{ id := "e1", timestamp := 0, absoluteTime := 1100, type := "keydown",
                 sessionId := "s1", data := { key := some "a", pasteLength := none } }],
    sessionStart := 1000, sessionId := "s1", contentHash := "", signature := "",
    finalText := "a" }

/-- Container and file wrapping `zeroTimestampMetadata`. -/
def zeroTimestampContainer : FileHandler.HumanSignContainer :=
  { content := some "a", metadata := some zeroTimestampMetadata, manifest := none }

/-- File wrapping `zeroTimestampContainer`. -/
def zeroTimestampFile : FileHandler.HumanSignFileRep :=
  { size := 100, container := some zeroTimestampContainer }

example : SecurityUtils.sanitizeContent "ab" = "ab" := by decide

/-! Claim theorems. -/

/-- The crypto-integrity check fails on the genuine demo round trip for
every injective hash function: the stored signature hashes
`signatureString ++ "hs_key_1"` while verification hashes
`signatureString ++ "human_sign_demo_key_2024"`, and the two preimages
differ, so (absent a hash collision) the digests differ. -/
theorem demo_verify_false_of_injective (hashFn : String → String)
    (hinj : Function.Injective hashFn) :
    AnalysisEngine.verifyCryptographicIntegrity hashFn (demoArchiveWith hashFn).metadata
      (some (demoArchiveWith hashFn).manifest) 5000 = false := by
  unfold AnalysisEngine.verifyCryptographicIntegrity
  dsimp only
  split_ifs with h1 h2
  · rfl
  · rfl
  · unfold CryptoUtils.verifySignature
    refine beq_eq_false_iff_ne.mpr fun heq => ?_
    have hs : CryptoUtils.signatureString
          { demoMetadata with contentHash := hashFn "ab" } 5000 ++ "hs_key_1" =
        CryptoUtils.signatureString
          { demoMetadata with contentHash := hashFn "ab" } 5000 ++
          "human_sign_demo_key_2024" := hinj heq
    have hdata := congrArg String.data hs
    simp only [String.data_append] at hdata
    exact absurd (List.append_cancel_left hdata) (by decide)

/-- C1 (code bug): the claim states that packaging with
`createHumanSignFile` and analyzing the unmodified archive yields
`isValid = true`.  The code cannot: packaging signs with a fresh random
`hs_`-prefixed session key and the clock at signing, while
`verifyCryptographicIntegrity` re-derives the signature with the
hardcoded demo key `human_sign_demo_key_2024` and the clock at
verification, so the signatures never match for any injective
(collision-free) hash.  Evaluating the full pipeline on a genuine round
trip — even with the verification clock frozen at the signing instant,
isolating the key mismatch — yields `isValid = false` (with
`isTampered = false`). -/
theorem claim_C1_roundtrip_isValid_false (hashFn : String → String)
    (hinj : Function.Injective hashFn) :
    ((AnalysisEngine.analyzeHumanSignFile hashFn (demoFileWith hashFn) 5000).map
      fun r => (r.isValid, r.isTampered)).toOption = some (false, false) := by
  have hev : (demoArchiveWith hashFn).metadata.events = demoEvents := rfl
  have hss : (demoArchiveWith hashFn).metadata.sessionStart = 1000 := rfl
  have hcont : (demoArchiveWith hashFn).content = "ab" := rfl
  have hread : (FileHandler.readHumanSignFile (demoFileWith hashFn) 5000).result =
      .ok ⟨"ab", (demoArchiveWith hashFn).metadata, some (demoArchiveWith hashFn).manifest⟩ := by
    simp only [FileHandler.readHumanSignFile, demoFileWith, hcont]
    rw [if_neg (by norm_num)]
    rw [if_neg (show ¬¬ SecurityUtils.validateEventStructure
      (demoArchiveWith hashFn).metadata.events = true by rw [hev]; decide)]
    rw [if_neg (show ¬ SecurityUtils.detectTimestampManipulation
      (demoArchiveWith hashFn).metadata.events 5000 = true by rw [hev]; decide)]
    rw [if_neg (show ¬ SecurityUtils.isReplayAttack (demoArchiveWith hashFn).metadata 5000 = true
      by unfold SecurityUtils.isReplayAttack; rw [hss]; decide)]
    rfl
  have htamper : AnalysisEngine.detectTampering (demoArchiveWith hashFn).metadata "ab" = false := by
    unfold AnalysisEngine.detectTampering AnalysisEngine.hasSuspiciousGaps
      AnalysisEngine.reconstructContentFromEvents AnalysisEngine.checkDuplicateTimestamps
      AnalysisEngine.analyzeTimingPatterns AnalysisEngine.verifyEventSequence
    rw [hev]
    decide
  have hcrypto := demo_verify_false_of_injective hashFn hinj
  simp only [AnalysisEngine.analyzeHumanSignFile, hread]
  simp [hcrypto, htamper]
  rfl

/-- Witness for C1: the identity stand-in hash is injective, and the
round trip concretely yields `isValid = false`. -/
theorem claim_C1_witness :
    ((AnalysisEngine.analyzeHumanSignFile idHash (demoFileWith idHash) 5000).map
      fun r => (r.isValid, r.isTampered)).toOption = some (false, false) :=
  claim_C1_roundtrip_isValid_false idHash fun _ _ h => h

/-- C2 (code bug): the claim states that `verifySignature` re-derives the
signature from the signing-time value persisted at signing time, so an
unmodified signature verifies.  The source re-derives with a fresh
`Date.now()`: a signature created at clock 5000 fails verification at
clock 5001 with the very same metadata and key, for every injective
hash — the two serialized signature payloads differ only in their
embedded timestamp. -/
theorem claim_C2_verify_uses_current_clock (hashFn : String → String)
    (hinj : Function.Injective hashFn) :
    CryptoUtils.verifySignature hashFn demoMetadata
      (CryptoUtils.createSignature hashFn demoMetadata "hs_key_1" 5000)
      "hs_key_1" 5001 = false := by
  unfold CryptoUtils.verifySignature CryptoUtils.createSignature
  refine beq_eq_false_iff_ne.mpr fun heq => ?_
  exact absurd (hinj heq) (by decide)

/-- Witness for C2: concrete verification failure under the identity
stand-in hash. -/
theorem claim_C2_witness :
    CryptoUtils.verifySignature idHash demoMetadata
      (CryptoUtils.createSignature idHash demoMetadata "hs_key_1" 5000)
      "hs_key_1" 5001 = false :=
  claim_C2_verify_uses_current_clock idHash fun _ _ h => h

/-- C3 (confirmed): the final verdict equals the spec's combination rule:
`combinedScore = max(0, behavioral − aiProbability)`, `invalid` on crypto
failure or tampering, the 30/15 adjustment above aiProbability 70/50, and
the 75/50/25 thresholds. -/
theorem claim_C3_verdict_combination (behavioralScore : ℚ) (aiProbability : ℕ)
    (cryptoValid isTampered : Bool) :
    AnalysisEngine.determineEnhancedVerdict
      (max 0 (behavioralScore - (aiProbability : ℚ))) cryptoValid isTampered aiProbability =
    specCombinedVerdict behavioralScore aiProbability cryptoValid isTampered := by
  cases cryptoValid <;> cases isTampered <;>
    simp only [AnalysisEngine.determineEnhancedVerdict, specCombinedVerdict,
      Bool.not_true, Bool.not_false, Bool.false_or, Bool.true_or, Bool.or_false,
      Bool.or_true, if_true, if_false, sub_zero] <;>
    split_ifs <;> first | rfl | linarith

/-- C5 (corrected, counterexample): an oversized upload that is not a
valid ZIP is rejected by the container-parse failure, not the size
ceiling — `zip.loadAsync` runs before the size check, so the claim's
"rejects before attempting to parse the container" is false. -/
theorem claim_C5_counterexample :
    10 * 1024 * 1024 < oversizedMalformedFile.size ∧
    (FileHandler.readHumanSignFile oversizedMalformedFile 0).containerParseAttempted = true ∧
    (FileHandler.readHumanSignFile oversizedMalformedFile 0).error? =
      some FileHandler.ReadError.containerParseFailed := by decide

/-- C5 (corrected, amended): an upload larger than 10 MiB is always
rejected, after the container-parse attempt but before any member is
parsed. -/
theorem claim_C5_amended (f : FileHandler.HumanSignFileRep) (now : ℕ)
    (h : 10 * 1024 * 1024 < f.size) :
    (FileHandler.readHumanSignFile f now).memberParseAttempted = false ∧
    (FileHandler.readHumanSignFile f now).rejected = true := by
  obtain ⟨size, cont⟩ := f
  replace h : 10 * 1024 * 1024 < size := h
  cases cont with
  | none => exact ⟨rfl, rfl⟩
  | some c =>
    simp only [FileHandler.readHumanSignFile]
    rw [if_pos h]
    exact ⟨rfl, rfl⟩

/-- Witness for C5: a concrete oversized well-formed archive is rejected
with its members unparsed. -/
theorem claim_C5_witness :
    (FileHandler.readHumanSignFile oversizedWellFormedFile 0).memberParseAttempted = false ∧
    (FileHandler.readHumanSignFile oversizedWellFormedFile 0).rejected = true :=
  claim_C5_amended oversizedWellFormedFile 0 (by decide)

set_option maxRecDepth 40000 in
/-- C6 (corrected, counterexample): a live session of 20 key-downs (one
Backspace, 100 ms apart) gets confidence 85 from the code — the ratio
1/19 over the 19 filtered ring timings earns +10 — while the spec's
heuristic over the 20 key-down events gives ratio 1/20 = 0.05, earns
nothing, and yields 75. -/
theorem claim_C6_counterexample :
    (BiometricCapture.calculateStats (BiometricCapture.runCapture liveSessionInputs)).humanConfidence = 85 ∧
    specHumanConfidence (BiometricCapture.runCapture liveSessionInputs).backspaceCount
      (BiometricCapture.runCapture liveSessionInputs).pasteCount
      (BiometricCapture.calculateStats (BiometricCapture.runCapture liveSessionInputs)).variance
      (BiometricCapture.calculateStats (BiometricCapture.runCapture liveSessionInputs)).thinkingPauses
      (BiometricCapture.keyDownCount liveSessionInputs) = 75 := by decide

/-- C6 (corrected, amended): the live human-confidence score equals the
spec's heuristic with the backspace ratio taken over the filtered
ring-timing count (intervals in `(0, 5000)` ms among the ≤ 100 most
recent eligible keys) instead of the total key-down count. -/
theorem claim_C6_amended (s : BiometricCapture.CaptureState) :
    (BiometricCapture.calculateStats s).humanConfidence =
      specHumanConfidence s.backspaceCount s.pasteCount
        (BiometricCapture.calculateStats s).variance
        (BiometricCapture.calculateStats s).thinkingPauses
        (BiometricCapture.statsTimings s).length := by
  have key : ∀ (b p : ℕ) (v : ℤ) (ps tk : ℕ),
      BiometricCapture.calculateHumanConfidence b p v ps tk =
        specHumanConfidence b p v ps tk := by
    intro b p v ps tk
    unfold BiometricCapture.calculateHumanConfidence specHumanConfidence
    dsimp only
    split_ifs <;> exact congrArg (fun z => max 0 (min 100 z)) (by omega)
  simp only [BiometricCapture.calculateStats]
  exact key _ _ _ _ _

/-- C10 (confirmed): an archive containing any event with a falsy scalar
field — empty `id`, numeric `timestamp` or `absoluteTime` equal to 0,
empty `type` or `sessionId` — is rejected by `readHumanSignFile`, because
`validateEventStructure` tests JavaScript truthiness of each field. -/
theorem claim_C10_falsy_fields (f : FileHandler.HumanSignFileRep) (now : ℕ)
    (c : FileHandler.HumanSignContainer) (m : BiometricMetadata)
    (hc : f.container = some c) (hm : c.metadata = some m)
    (h : ∃ e ∈ m.events,
      e.id = "" ∨ e.timestamp = 0 ∨ e.absoluteTime = 0 ∨ e.type = "" ∨ e.sessionId = "") :
    (FileHandler.readHumanSignFile f now).rejected = true := by
  have hval : SecurityUtils.validateEventStructure m.events = false := by
    rcases h with ⟨e, he, hor⟩
    apply Bool.eq_false_iff.mpr
    intro hall
    have hmem := List.all_eq_true.mp hall e he
    simp only [Bool.and_eq_true, decide_eq_true_eq] at hmem
    rcases hor with h1 | h1 | h1 | h1 | h1 <;> simp [h1] at hmem
  simp only [FileHandler.readHumanSignFile, hc, hm]
  split_ifs with hsize hv hdet hrep <;> first | rfl | simp [hval] at hv

/-- C4 (corrected, counterexample): the claim demands rejection of any
event whose `absoluteTime` is more than 60 s in the future even for
zero/one-event lists, but `detectTimestampManipulation` returns `false`
outright for fewer than two events: a structurally valid single-event
archive 61 s in the future is accepted. -/
theorem claim_C4_counterexample :
    (∃ e ∈ futureEventMetadata.events, e.absoluteTime > (1000000 : ℚ) + 60000) ∧
    (FileHandler.readHumanSignFile futureEventFile 1000000).rejected = false := by decide

/-- C4 (corrected, amended): for event lists with at least two events,
`readHumanSignFile` rejects the archive whenever some consecutive pair's
capture-order timestamp decreases or some event's `absoluteTime` exceeds
the verification clock by more than 60 s; lists with fewer than two
events skip both checks. -/
theorem claim_C4_amended (f : FileHandler.HumanSignFileRep) (now : ℕ)
    (c : FileHandler.HumanSignContainer) (m : BiometricMetadata)
    (hc : f.container = some c) (hm : c.metadata = some m)
    (h2 : 2 ≤ m.events.length)
    (h : (∃ p ∈ m.events.zip m.events.tail, p.2.timestamp < p.1.timestamp) ∨
         (∃ e ∈ m.events, e.absoluteTime > (now : ℚ) + 60000)) :
    (FileHandler.readHumanSignFile f now).rejected = true := by
  have hdet : SecurityUtils.detectTimestampManipulation m.events now = true := by
    unfold SecurityUtils.detectTimestampManipulation
    rw [if_neg (by omega)]
    simp only [Bool.or_eq_true, List.any_eq_true, decide_eq_true_eq]
    exact h
  simp only [FileHandler.readHumanSignFile, hc, hm]
  split_ifs <;> rfl

/-- Witness for C4: the two-event archive with decreasing timestamps is
rejected. -/
theorem claim_C4_witness :
    (FileHandler.readHumanSignFile outOfOrderFile 1000).rejected = true :=
  claim_C4_amended outOfOrderFile 1000 outOfOrderContainer outOfOrderMetadata rfl rfl
    (by decide) (by decide)

/-- C7 (corrected, counterexample): on `densityMetadata` both the
event-density rule (3 > 2) and the backspace rule (0 < 0.02) contribute
points — `aiProbability = 25` — yet the red-flag list is empty: the
density rule has no flag at all and the backspace flag additionally
requires more than 50 events. -/
theorem claim_C7_counterexample :
    (AIDetector.analyzeForAI densityMetadata).aiProbability = 25 ∧
    (AIDetector.analyzeForAI densityMetadata).redFlags = [] ∧
    (AIDetector.extractFeatures densityMetadata).eventDensity > 2 ∧
    (AIDetector.extractFeatures densityMetadata).backspaceRatio < 0.02 := by decide

/-- C7 (corrected, amended): the red flags `analyzeForAI` emits are
exactly: burst pattern above 0.1; backspace ratio below 0.02 *together
with* more than 50 events; paste ratio above 0.1; fewer than two thinking
pauses *together with* more than 100 events.  The consistency flag can
never fire (the tested `features.consistency` property does not exist),
and the event-density rule scores without any flag.  The confidence value
is `abs(aiProbability − 50) * 2`. -/
theorem claim_C7_amended (m : BiometricMetadata) :
    (("Burst typing pattern suggests automated input" ∈
        (AIDetector.analyzeForAI m).redFlags) ↔
      (AIDetector.extractFeatures m).burstPattern > 0.1) ∧
    (("Very few corrections made, unusual for human typing" ∈
        (AIDetector.analyzeForAI m).redFlags) ↔
      ((AIDetector.extractFeatures m).backspaceRatio < 0.02 ∧ m.events.length > 50)) ∧
    (("Significant paste operations detected" ∈
        (AIDetector.analyzeForAI m).redFlags) ↔
      (AIDetector.extractFeatures m).pasteRatio > 0.1) ∧
    (("Lack of natural thinking pauses" ∈
        (AIDetector.analyzeForAI m).redFlags) ↔
      ((AIDetector.extractFeatures m).thinkingPauses < 2 ∧ m.events.length > 100)) ∧
    ("Extremely consistent typing rhythm detected" ∉
      (AIDetector.analyzeForAI m).redFlags) ∧
    (AIDetector.analyzeForAI m).confidence =
      (((AIDetector.analyzeForAI m).aiProbability : ℤ) - 50).natAbs * 2 := by
  simp only [AIDetector.analyzeForAI]
  split_ifs <;> simp_all

set_option maxRecDepth 100000 in
/-- C8 (corrected, counterexample): appending one paste event to the
burst capture *raises* the behavioral score from 80 to 90 — the paste's
later `absoluteTime` stretches the session duration from 0.45 s to 2 s,
cancelling the 20-point superhuman-speed penalty while the paste itself
costs only 10. -/
theorem claim_C8_counterexample :
    burstPlusPasteMetadata.events = burstMetadata.events ++ [latePasteEvent] ∧
    latePasteEvent.type = "paste" ∧
    (FileHandler.analyzeBiometrics burstMetadata).humanScore = 80 ∧
    (FileHandler.analyzeBiometrics burstPlusPasteMetadata).humanScore = 90 := by decide

/-- Appending events that all fail a filter predicate leaves the filter
unchanged. -/
theorem filter_append_of_none (evs ps : List KeystrokeEvent) (p : KeystrokeEvent → Bool)
    (h : ∀ e ∈ ps, p e = false) : (evs ++ ps).filter p = evs.filter p := by
  have h2 : ps.filter p = [] := List.filter_eq_nil_iff.mpr fun a ha => by simp [h a ha]
  rw [List.filter_append, h2, List.append_nil]

/-- Appending events that all satisfy a filter predicate appends them to
the filter result. -/
theorem filter_append_of_all (evs ps : List KeystrokeEvent) (p : KeystrokeEvent → Bool)
    (h : ∀ e ∈ ps, p e = true) : (evs ++ ps).filter p = evs.filter p ++ ps := by
  have h2 : ps.filter p = ps := List.filter_eq_self.mpr fun a ha => by simp [h a ha]
  rw [List.filter_append, h2]

/-- Appending paste events leaves every AI feature unchanged except the
paste ratio, which cannot decrease. -/
theorem extractFeatures_append (m : BiometricMetadata) (ps : List KeystrokeEvent)
    (hps : ∀ e ∈ ps, e.type = "paste") :
    (AIDetector.extractFeatures { m with events := m.events ++ ps }).burstPattern =
      (AIDetector.extractFeatures m).burstPattern ∧
    (AIDetector.extractFeatures { m with events := m.events ++ ps }).backspaceRatio =
      (AIDetector.extractFeatures m).backspaceRatio ∧
    (AIDetector.extractFeatures m).pasteRatio ≤
      (AIDetector.extractFeatures { m with events := m.events ++ ps }).pasteRatio ∧
    (AIDetector.extractFeatures { m with events := m.events ++ ps }).eventDensity =
      (AIDetector.extractFeatures m).eventDensity ∧
    (AIDetector.extractFeatures { m with events := m.events ++ ps }).thinkingPauses =
      (AIDetector.extractFeatures m).thinkingPauses ∧
    (AIDetector.extractFeatures { m with events := m.events ++ ps }).avgKeyInterval =
      (AIDetector.extractFeatures m).avgKeyInterval := by
  have hkd := filter_append_of_none m.events ps (fun e => e.type == "keydown")
    (fun e he => by simp [hps e he])
  have hbs := filter_append_of_none m.events ps
    (fun e => e.type == "keydown" && e.data.key == some "Backspace")
    (fun e he => by simp [hps e he])
  have hpa := filter_append_of_all m.events ps (fun e => e.type == "paste")
    (fun e he => by simp [hps e he])
  simp only [AIDetector.extractFeatures]
  rw [hkd, hbs, hpa]
  refine ⟨rfl, rfl, ?_, rfl, rfl, rfl⟩
  gcongr
  rw [List.map_append, List.sum_append]
  refine le_add_of_nonneg_right (List.sum_nonneg fun x hx => ?_)
  obtain ⟨e, _, rfl⟩ := List.mem_map.mp hx
  positivity

/-- Appending paste events leaves the key-event count, backspace count
and timing variance of `preProcessEvents` unchanged and adds the new
pastes to the paste count. -/
theorem preProcess_append (evs ps : List KeystrokeEvent) (hps : ∀ e ∈ ps, e.type = "paste") :
    (FileHandler.preProcessEvents (evs ++ ps)).keyEvents =
      (FileHandler.preProcessEvents evs).keyEvents ∧
    (FileHandler.preProcessEvents (evs ++ ps)).backspaceCount =
      (FileHandler.preProcessEvents evs).backspaceCount ∧
    (FileHandler.preProcessEvents (evs ++ ps)).timingVariance =
      (FileHandler.preProcessEvents evs).timingVariance ∧
    (FileHandler.preProcessEvents (evs ++ ps)).pasteEvents =
      (FileHandler.preProcessEvents evs).pasteEvents + ps.length := by
  have hkd := filter_append_of_none evs ps (fun e => e.type == "keydown")
    (fun e he => by simp [hps e he])
  have hku := filter_append_of_none evs ps (fun e => e.type == "keydown" || e.type == "keyup")
    (fun e he => by simp [hps e he])
  have hbs := filter_append_of_none evs ps
    (fun e => e.type == "keydown" && e.data.key == some "Backspace")
    (fun e he => by simp [hps e he])
  have hpa := filter_append_of_all evs ps (fun e => e.type == "paste")
    (fun e he => by simp [hps e he])
  simp only [FileHandler.preProcessEvents, FileHandler.keyDownTimings]
  rw [hkd, hku, hbs, hpa]
  exact ⟨rfl, rfl, rfl, by rw [List.length_append]⟩

/-- C8 (corrected, amended): appending paste events never decreases the
AI-likelihood score; and it never increases the behavioral score
*provided* the appended events do not extend the session duration (the
counterexample shows the score can rise when they do, because the
superhuman-speed penalty depends on the duration). -/
theorem claim_C8_amended (m : BiometricMetadata) (ps : List KeystrokeEvent)
    (hps : ∀ e ∈ ps, e.type = "paste") :
    AIDetector.predictAIProbability (AIDetector.extractFeatures m) ≤
      AIDetector.predictAIProbability
        (AIDetector.extractFeatures { m with events := m.events ++ ps }) ∧
    ((FileHandler.preProcessEvents (m.events ++ ps)).sessionDuration ≤
        (FileHandler.preProcessEvents m.events).sessionDuration →
      (FileHandler.analyzeBiometrics { m with events := m.events ++ ps }).humanScore ≤
        (FileHandler.analyzeBiometrics m).humanScore) := by
  constructor
  · obtain ⟨h1, h2, h3, h4, h5, h6⟩ := extractFeatures_append m ps hps
    unfold AIDetector.predictAIProbability
    dsimp only
    rw [h1, h2, h4, h5, h6]
    apply min_le_min (le_refl 100)
    have hpaste :
        (if (AIDetector.extractFeatures m).pasteRatio > 0.1 then (20 : ℕ) else 0) ≤
          (if (AIDetector.extractFeatures { m with events := m.events ++ ps }).pasteRatio > 0.1
            then (20 : ℕ) else 0) := by
      split_ifs with ha hb
      · exact le_refl _
      · exact absurd (lt_of_lt_of_le ha h3) hb
      · exact Nat.zero_le _
      · exact le_refl _
    omega
  · intro hdur
    obtain ⟨hk, hb, hv, hp⟩ := preProcess_append m.events ps hps
    unfold FileHandler.analyzeBiometrics
    dsimp only
    rw [hk, hb, hv, hp]
    apply max_le_max (le_refl (0 : ℚ))
    apply min_le_min (le_refl (100 : ℚ))
    have hm0 : (0 : ℚ) < max (FileHandler.preProcessEvents (m.events ++ ps)).sessionDuration 1 :=
      lt_of_lt_of_le zero_lt_one (le_max_right _ _)
    have hm1 : max (FileHandler.preProcessEvents (m.events ++ ps)).sessionDuration 1 ≤
        max (FileHandler.preProcessEvents m.events).sessionDuration 1 :=
      max_le_max hdur (le_refl 1)
    have hspeed :
        ((FileHandler.preProcessEvents m.events).keyEvents : ℚ) /
            max (FileHandler.preProcessEvents m.events).sessionDuration 1 ≤
          ((FileHandler.preProcessEvents m.events).keyEvents : ℚ) /
            max (FileHandler.preProcessEvents (m.events ++ ps)).sessionDuration 1 :=
      div_le_div_of_nonneg_left (Nat.cast_nonneg _) hm0 hm1
    split_ifs <;> push_cast <;>
      linarith [hspeed, Nat.cast_nonneg (α := ℚ) ps.length,
        Nat.cast_nonneg (α := ℚ) (FileHandler.preProcessEvents m.events).pasteEvents]

set_option maxRecDepth 100000 in
/-- Witness for C8: the immediate paste (same wall-clock instant as the
last key-down) leaves the duration unchanged, so both conclusions apply
to the burst capture. -/
theorem claim_C8_witness :
    AIDetector.predictAIProbability (AIDetector.extractFeatures burstMetadata) ≤
      AIDetector.predictAIProbability
        (AIDetector.extractFeatures
          { burstMetadata with events := burstMetadata.events ++ [immediatePasteEvent] }) ∧
    (FileHandler.analyzeBiometrics
        { burstMetadata with events := burstMetadata.events ++ [immediatePasteEvent] }).humanScore ≤
      (FileHandler.analyzeBiometrics burstMetadata).humanScore :=
  ⟨(claim_C8_amended burstMetadata [immediatePasteEvent] (by decide)).1,
   (claim_C8_amended burstMetadata [immediatePasteEvent] (by decide)).2 (by decide)⟩

/-- C9 (confirmed): with zero events every guarded statistic is total and
each ratio with a would-be-zero denominator evaluates to 0: the
pre-processing timing statistics and session duration, the AI-feature
ratios (backspace, paste, density), the rhythm statistics (average
interval, consistency, standard deviation), and the live variance and
pause count of an empty capture session. -/
theorem claim_C9_zero_events (m : BiometricMetadata) (h : m.events = []) :
    (FileHandler.preProcessEvents m.events).averageTiming = 0 ∧
    (FileHandler.preProcessEvents m.events).timingVariance = 0 ∧
    (FileHandler.preProcessEvents m.events).sessionDuration = 0 ∧
    (AIDetector.extractFeatures m).backspaceRatio = 0 ∧
    (AIDetector.extractFeatures m).pasteRatio = 0 ∧
    (AIDetector.extractFeatures m).eventDensity = 0 ∧
    (AIDetector.extractFeatures m).avgKeyInterval = 0 ∧
    (AIDetector.extractFeatures m).rhythmConsistency = 0 ∧
    (AIDetector.extractFeatures m).timingVariance = 0 ∧
    (BiometricCapture.calculateStats (BiometricCapture.runCapture [])).variance = 0 ∧
    (BiometricCapture.calculateStats (BiometricCapture.runCapture [])).thinkingPauses = 0 := by
  simp [h, FileHandler.preProcessEvents, FileHandler.keyDownTimings,
    FileHandler.calculateVariance, AIDetector.extractFeatures, AIDetector.calculateTimings,
    AIDetector.calculateRhythmFeatures, AIDetector.detectBurstPatterns,
    BiometricCapture.calculateStats, BiometricCapture.runCapture,
    BiometricCapture.initialState, BiometricCapture.statsTimings]

/-- Witness for C9: the zero-event metadata instantiates every conjunct. -/
theorem claim_C9_witness :
    (FileHandler.preProcessEvents emptyEventsMetadata.events).averageTiming = 0 ∧
    (FileHandler.preProcessEvents emptyEventsMetadata.events).timingVariance = 0 ∧
    (FileHandler.preProcessEvents emptyEventsMetadata.events).sessionDuration = 0 ∧
    (AIDetector.extractFeatures emptyEventsMetadata).backspaceRatio = 0 ∧
    (AIDetector.extractFeatures emptyEventsMetadata).pasteRatio = 0 ∧
    (AIDetector.extractFeatures emptyEventsMetadata).eventDensity = 0 ∧
    (AIDetector.extractFeatures emptyEventsMetadata).avgKeyInterval = 0 ∧
    (AIDetector.extractFeatures emptyEventsMetadata).rhythmConsistency = 0 ∧
    (AIDetector.extractFeatures emptyEventsMetadata).timingVariance = 0 ∧
    (BiometricCapture.calculateStats (BiometricCapture.runCapture [])).variance = 0 ∧
    (BiometricCapture.calculateStats (BiometricCapture.runCapture [])).thinkingPauses = 0 :=
  claim_C9_zero_events emptyEventsMetadata rfl

/-- Witness for C10: the archive whose single event has `timestamp = 0`
is rejected. -/
theorem claim_C10_witness :
    (FileHandler.readHumanSignFile zeroTimestampFile 1000).rejected = true :=
  claim_C10_falsy_fields zeroTimestampFile 1000 zeroTimestampContainer zeroTimestampMetadata
    rfl rfl (by decide)
example : SecurityUtils.sanitizeContent "a<b" = "a&lt;b" := by decide
example : jsRound (5/2) = 3 := by decide
example : jsSqrt 10000 = 100 := by decide
example : jsSqrt 0 = 0 := by decide
example : jsStd [100, 100] = 0 := by decide
example : ((1:ℚ)/19 > 0.05 ∧ (1:ℚ)/19 < 0.2) := by decide
example : "12" = toString (12 : ℕ) := by decide
